import Mathlib

/-!
Verification of the bootstrapped feature-selection engine in
`feature_selector.py` (UKBDepressionStudy).

The Python source is shallowly embedded below.  Cell values, scores and
p-values are modelled by `ℚ` (real arithmetic); a missing value (`NaN`)
is modelled by `Option ℚ` with `none` as the sentinel.  Fallible Python
statements (raised exceptions) are modelled with `Except String`.
External library calls (scipy / sklearn / statsmodels) are parameters of
the embedding, collected in the `Externals` structure: the repository's
own code is translated literally, the libraries it calls are abstract
function arguments.
-/

namespace UKB

/-- NumPy `astype('int')` on a float value: truncation toward zero. -/
def npIntCast (q : ℚ) : ℤ := if 0 ≤ q then ⌊q⌋ else ⌈q⌉

/-- Embedding of the line `data[target].to_numpy().astype('int')` that every
scoring driver in the source executes on its target column. -/
def targetAstypeInt (raw : List ℚ) : List ℤ := raw.map npIntCast

/-- Model of a pandas DataFrame: a row count together with named columns of
rational cells.  `nrows` models `len(data)`. -/
structure DataFrame where
  nrows : ℕ
  cols : List (String × List ℚ)
deriving DecidableEq

/-- Column labels of the frame, in order. -/
def DataFrame.colNames (df : DataFrame) : List String := df.cols.map Prod.fst

/-- Reading one column (`data[name]`); `none` models a `KeyError`. -/
def DataFrame.getCol (df : DataFrame) (name : String) : Option (List ℚ) :=
  (df.cols.find? (fun p => p.1 = name)).map Prod.snd

/-- Embedding of `data.drop(columns = toDrop)`: pandas raises a `KeyError`
when any requested label is absent (default `errors = 'raise'`). -/
def DataFrame.drop (df : DataFrame) (toDrop : List String) : Except String DataFrame :=
  if toDrop.all (fun c => df.colNames.contains c) then
    Except.ok (DataFrame.mk df.nrows (df.cols.filter (fun p => !(toDrop.contains p.1))))
  else
    Except.error "KeyError"

/-- Row selection used to model one bootstrap sample: the sampled frame keeps
every column and materializes the rows listed in `idxs` (repetitions allowed),
so `len(sample) = idxs.length`. -/
def DataFrame.sampleRows (df : DataFrame) (idxs : List ℕ) : DataFrame :=
  DataFrame.mk idxs.length (df.cols.map (fun p => (p.1, idxs.map (fun i => p.2.getD i 0))))

/-- Embedding of `FeatureSelector.frequency_map`: drop the ignored columns and
record each remaining column's sum. -/
def frequency_map (data : DataFrame) (ignore : List String) :
    Except String (List (String × ℚ)) :=
  (data.drop ignore).map (fun d => d.cols.map (fun p => (p.1, p.2.sum)))

/-- List of columns `frequency_mask` passes to `drop`: the features whose
frequency, or its complement with respect to `total = len(data)`, is below the
threshold (source line 487). -/
def maskDropList (threshold : ℚ) (freq_map : List (String × ℚ)) (total : ℚ) : List String :=
  (freq_map.filter (fun p => decide (p.2 < threshold) || decide (total - p.2 < threshold))).map Prod.fst

/-- Embedding of `FeatureSelector.frequency_mask` (source lines 474-488). -/
def frequency_mask (data : DataFrame) (threshold : ℚ) (freq_map : List (String × ℚ)) :
    Except String DataFrame :=
  data.drop (maskDropList threshold freq_map (data.nrows : ℚ))

/-- Semantics of `pool.map(f, args)` (and of any sequence of fallible Python
statements mapped over a list): one result per argument in argument order, and
the first raised exception aborts the whole call with no partial results. -/
def exceptMapList (f : α → Except String β) : List α → Except String (List β)
  | [] => Except.ok []
  | a :: l =>
    match f a with
    | Except.error e => Except.error e
    | Except.ok b =>
      match exceptMapList f l with
      | Except.error e => Except.error e
      | Except.ok bs => Except.ok (b :: bs)

/-- External library surface of the source file.  Each field abstracts one
scipy / sklearn / statsmodels / skfeature call; the repository's code never
inspects these functions, it only applies them. -/
structure Externals where
  chi2fn : List ℚ → List ℤ → ℚ × ℚ
  infogainfn : List ℚ → List ℤ → ℚ
  mwufn : List ℤ → List ℤ → ℚ × ℚ
  ttestfn : List ℤ → List ℤ → ℚ × ℚ
  fdrfn : List (Option ℚ) → List (Option ℚ)
  lcsiMRMR : List (List ℚ) → List ℤ → Option ℚ → List ℕ
  lcsiJMI : List (List ℚ) → List ℤ → Option ℚ → List ℕ
  logisticL1 : List (List ℚ) → List ℤ → ℚ → List ℚ
  linearLasso : List (List ℚ) → List ℤ → ℚ → List ℚ

/-- Result record of one `fs_wrapper` task, per scoring method.  `none` fields
are the NaN sentinel. -/
inductive FSResult where
  | infogainR (score : ℚ)
  | chi2R (score pval : ℚ)
  | mwuR (score1 score2 pval : Option ℚ)
  | ttestR (score pval : Option ℚ)
deriving DecidableEq

/-- Target values at the positions where the feature column equals `v`:
embedding of `target[np.where(data[snp] == v)]`. -/
def groupWhere (col : List ℚ) (target : List ℤ) (v : ℚ) : List ℤ :=
  ((col.zip target).filter (fun p => decide (p.1 = v))).map Prod.snd

/-- Embedding of `fs_wrapper` (source lines 22-78): reads the shared frame,
extracts one feature column and its frequency, and dispatches on the method
name; an unrecognized name raises. -/
def fs_wrapper (ext : Externals) (data : DataFrame) (target : List ℤ)
    (snp : String) (fname : String) : Except String (FSResult × String × ℚ) :=
  match data.getCol snp with
  | none => Except.error "KeyError"
  | some col =>
    let frequency := col.sum
    if fname = "infogain" then
      Except.ok (FSResult.infogainR (ext.infogainfn col target), snp, frequency)
    else if fname = "chi2" then
      let sp := ext.chi2fn col target
      Except.ok (FSResult.chi2R sp.1 sp.2, snp, frequency)
    else if fname = "mwu" then
      let zero_vector := groupWhere col target 0
      let one_vector := groupWhere col target 1
      if zero_vector.isEmpty || one_vector.isEmpty then
        Except.ok (FSResult.mwuR none none none, snp, frequency)
      else
        let u1p := ext.mwufn zero_vector one_vector
        let u2p := ext.mwufn one_vector zero_vector
        Except.ok (FSResult.mwuR (some u1p.1) (some u2p.1) (some u1p.2), snp, frequency)
    else if fname = "ttest" then
      let zero_vector := groupWhere col target 0
      let one_vector := groupWhere col target 1
      if zero_vector.isEmpty || one_vector.isEmpty then
        Except.ok (FSResult.ttestR none none, snp, frequency)
      else
        let tp := ext.ttestfn zero_vector one_vector
        Except.ok (FSResult.ttestR (some tp.1) (some tp.2), snp, frequency)
    else
      Except.error ("Unrecognized feature selection function name: " ++ fname)

/-- Embedding of the statement sequence shared by the four univariate drivers
(for example `chisquare`, lines 110-113):
`with Pool() as pool: results = pool.map(...)` followed by the two `unlink()`
calls.  There is no `try/finally` in the source, so the unlink statements run
only when `pool.map` returns; the Boolean records whether the shared storage
was released. -/
def dispatchAndRelease (task : String → Except String α) (ids : List String) :
    Except String (List α) × Bool :=
  match exceptMapList task ids with
  | Except.ok rs => (Except.ok rs, true)
  | Except.error e => (Except.error e, false)

/-- Value of a Python keyword argument. -/
inductive KwVal where
  | str (s : String)
  | num (q : ℚ)
deriving DecidableEq

/-- Keyword-argument dictionary. -/
def Kwargs := List (String × KwVal)

/-- Embedding of the `correction = 'fdr'; if 'correction' in kwargs: ...`
prologue of the p-value drivers. -/
def getCorrection (kwargs : Kwargs) : KwVal :=
  (List.lookup "correction" kwargs).getD (KwVal.str "fdr")

/-- Numeric keyword argument with a default. -/
def getNum (kwargs : Kwargs) (key : String) (dflt : ℚ) : ℚ :=
  match List.lookup key kwargs with
  | some (KwVal.num q) => q
  | _ => dflt

/-- Correction callables that are actually in scope at module level: line 13 of
the source imports `fdrcorrection` (and nothing defines `fdr_correction`). -/
def correctionEnv (ext : Externals) : List (String × (List (Option ℚ) → List (Option ℚ))) :=
  [("fdrcorrection", ext.fdrfn)]

/-- Python name resolution for a correction call: an absent global name raises
a `NameError` at the call site. -/
def callGlobal (ext : Externals) (nm : String) (ps : List (Option ℚ)) :
    Except String (List (Option ℚ)) :=
  match List.lookup nm (correctionEnv ext) with
  | some f => Except.ok (f ps)
  | none => Except.error ("NameError: name " ++ nm ++ " is not defined")

/-- Output table of one driver: the `SNP` string column plus the numeric
columns, in the order the source builds them. -/
structure ScoreTable where
  snps : List String
  numCols : List (String × List (Option ℚ))
deriving DecidableEq

/-- Projection used when `chisquare` builds its score column. -/
def chi2ScoreOf : FSResult → Option ℚ
  | FSResult.chi2R s _ => some s
  | _ => none

/-- Projection used when `chisquare` builds its p-value column. -/
def chi2PvalOf : FSResult → Option ℚ
  | FSResult.chi2R _ p => some p
  | _ => none

/-- Projection used when `infogain` builds its score column. -/
def infogainScoreOf : FSResult → Option ℚ
  | FSResult.infogainR s => some s
  | _ => none

/-- Projections of an `mwu` record. -/
def mwuScore1Of : FSResult → Option ℚ
  | FSResult.mwuR a _ _ => a
  | _ => none

/-- Second direction of the U statistic. -/
def mwuScore2Of : FSResult → Option ℚ
  | FSResult.mwuR _ b _ => b
  | _ => none

/-- Two-sided p-value of an `mwu` record. -/
def mwuPvalOf : FSResult → Option ℚ
  | FSResult.mwuR _ _ p => p
  | _ => none

/-- Signed t statistic of a `ttest` record. -/
def ttestStatOf : FSResult → Option ℚ
  | FSResult.ttestR s _ => s
  | _ => none

/-- p-value of a `ttest` record. -/
def ttestPvalOf : FSResult → Option ℚ
  | FSResult.ttestR _ p => p
  | _ => none

/-- Python `min` on two possibly-NaN floats: `min(x, y)` returns `y` exactly
when `y < x`, and any comparison with NaN is false. -/
def pymin : Option ℚ → Option ℚ → Option ℚ
  | some a, some b => if b < a then some b else some a
  | none, _ => none
  | some a, none => some a

/-- Embedding of the driver `chisquare` (source lines 80-126).  The first
component is the resulting table (or the propagated exception), the second
records whether the shared storage was released. -/
def chisquare (ext : Externals) (data : DataFrame) (target : String) (kwargs : Kwargs) :
    Except String ScoreTable × Bool :=
  match data.getCol target with
  | none => (Except.error "KeyError", false)
  | some rawt =>
    let target_arr := targetAstypeInt rawt
    match data.drop [target, "ID_1"] with
    | Except.error e => (Except.error e, false)
    | Except.ok only_snp_data =>
      match dispatchAndRelease (fun snp => fs_wrapper ext only_snp_data target_arr snp "chi2")
          only_snp_data.colNames with
      | (Except.error e, rel) => (Except.error e, rel)
      | (Except.ok results, rel) =>
        let snps := results.map (fun r => r.2.1)
        let scores := results.map (fun r => chi2ScoreOf r.1)
        let pvals := results.map (fun r => chi2PvalOf r.1)
        let freqs := results.map (fun r => some r.2.2)
        if getCorrection kwargs = KwVal.str "fdr" then
          match callGlobal ext "fdrcorrection" pvals with
          | Except.error e => (Except.error e, rel)
          | Except.ok adj =>
            (Except.ok (ScoreTable.mk snps
              [("chi2_score", scores), ("p_val", pvals), ("adjusted_p_val", adj),
               ("frequency", freqs)]), rel)
        else
          (Except.ok (ScoreTable.mk snps
            [("chi2_score", scores), ("p_val", pvals), ("frequency", freqs)]), rel)

/-- Embedding of the driver `infogain` (source lines 128-166): no p-value and
no correction step exists in this driver. -/
def infogain (ext : Externals) (data : DataFrame) (target : String) (_kwargs : Kwargs) :
    Except String ScoreTable × Bool :=
  match data.getCol target with
  | none => (Except.error "KeyError", false)
  | some rawt =>
    let target_arr := targetAstypeInt rawt
    match data.drop [target, "ID_1"] with
    | Except.error e => (Except.error e, false)
    | Except.ok only_snp_data =>
      match dispatchAndRelease (fun snp => fs_wrapper ext only_snp_data target_arr snp "infogain")
          only_snp_data.colNames with
      | (Except.error e, rel) => (Except.error e, rel)
      | (Except.ok results, rel) =>
        (Except.ok (ScoreTable.mk (results.map (fun r => r.2.1))
          [("infogain_score", results.map (fun r => infogainScoreOf r.1)),
           ("frequency", results.map (fun r => some r.2.2))]), rel)

/-- Embedding of the driver `mann_whitney_u` (source lines 168-216).  Note the
correction step at line 214 calls the global name `fdr_correction`, which the
module never defines (the import at line 13 is `fdrcorrection`). -/
def mann_whitney_u (ext : Externals) (data : DataFrame) (target : String) (kwargs : Kwargs) :
    Except String ScoreTable × Bool :=
  match data.getCol target with
  | none => (Except.error "KeyError", false)
  | some rawt =>
    let target_arr := targetAstypeInt rawt
    match data.drop [target, "ID_1"] with
    | Except.error e => (Except.error e, false)
    | Except.ok only_snp_data =>
      match dispatchAndRelease (fun snp => fs_wrapper ext only_snp_data target_arr snp "mwu")
          only_snp_data.colNames with
      | (Except.error e, rel) => (Except.error e, rel)
      | (Except.ok results, rel) =>
        let snps := results.map (fun r => r.2.1)
        let s1 := results.map (fun r => mwuScore1Of r.1)
        let s2 := results.map (fun r => mwuScore2Of r.1)
        let sc := results.map (fun r => pymin (mwuScore1Of r.1) (mwuScore2Of r.1))
        let pv := results.map (fun r => mwuPvalOf r.1)
        let freqs := results.map (fun r => some r.2.2)
        if getCorrection kwargs = KwVal.str "fdr" then
          match callGlobal ext "fdr_correction" pv with
          | Except.error e => (Except.error e, rel)
          | Except.ok adj =>
            (Except.ok (ScoreTable.mk snps
              [("mwu_1", s1), ("mwu_2", s2), ("mwu_score", sc), ("p_val", pv),
               ("adjusted_p_val", adj), ("frequency", freqs)]), rel)
        else
          (Except.ok (ScoreTable.mk snps
            [("mwu_1", s1), ("mwu_2", s2), ("mwu_score", sc), ("p_val", pv),
             ("frequency", freqs)]), rel)

/-- Embedding of the driver `ttest` (source lines 218-265). -/
def ttest (ext : Externals) (data : DataFrame) (target : String) (kwargs : Kwargs) :
    Except String ScoreTable × Bool :=
  match data.getCol target with
  | none => (Except.error "KeyError", false)
  | some rawt =>
    let target_arr := targetAstypeInt rawt
    match data.drop [target, "ID_1"] with
    | Except.error e => (Except.error e, false)
    | Except.ok only_snp_data =>
      match dispatchAndRelease (fun snp => fs_wrapper ext only_snp_data target_arr snp "ttest")
          only_snp_data.colNames with
      | (Except.error e, rel) => (Except.error e, rel)
      | (Except.ok results, rel) =>
        let snps := results.map (fun r => r.2.1)
        let ts := results.map (fun r => ttestStatOf r.1)
        let sc := results.map (fun r => (ttestStatOf r.1).map (fun v => |v|))
        let pv := results.map (fun r => ttestPvalOf r.1)
        let freqs := results.map (fun r => some r.2.2)
        if getCorrection kwargs = KwVal.str "fdr" then
          match callGlobal ext "fdrcorrection" pv with
          | Except.error e => (Except.error e, rel)
          | Except.ok adj =>
            (Except.ok (ScoreTable.mk snps
              [("t_statistic", ts), ("ttest_score", sc), ("p_val", pv),
               ("adjusted_p_val", adj), ("frequency", freqs)]), rel)
        else
          (Except.ok (ScoreTable.mk snps
            [("t_statistic", ts), ("ttest_score", sc), ("p_val", pv),
             ("frequency", freqs)]), rel)

/-- Embedding of the driver `mrmr` (source lines 267-297): single-threaded,
score column is a 0/1 selection indicator, no p-value column. -/
def mrmr (ext : Externals) (data : DataFrame) (target : String) (kwargs : Kwargs) :
    Except String ScoreTable :=
  match data.getCol target with
  | none => Except.error "KeyError"
  | some rawt =>
    let target_arr := targetAstypeInt rawt
    match data.drop [target, "ID_1"] with
    | Except.error e => Except.error e
    | Except.ok only_snp_data =>
      let data_arr := only_snp_data.cols.map Prod.snd
      let nsel := match List.lookup "n_selected_features" kwargs with
        | some (KwVal.num q) => some q
        | _ => none
      let F := ext.lcsiMRMR data_arr target_arr nsel
      Except.ok (ScoreTable.mk only_snp_data.colNames
        [("mrmr_score", (List.range only_snp_data.colNames.length).map
          (fun i => some (if F.contains i then 1 else 0)))])

/-- Embedding of the driver `jmi` (source lines 299-332). -/
def jmi (ext : Externals) (data : DataFrame) (target : String) (kwargs : Kwargs) :
    Except String ScoreTable :=
  match data.getCol target with
  | none => Except.error "KeyError"
  | some rawt =>
    let target_arr := targetAstypeInt rawt
    match data.drop [target, "ID_1"] with
    | Except.error e => Except.error e
    | Except.ok only_snp_data =>
      let data_arr := only_snp_data.cols.map Prod.snd
      let nsel := match List.lookup "n_selected_features" kwargs with
        | some (KwVal.num q) => some q
        | _ => none
      let F := ext.lcsiJMI data_arr target_arr nsel
      Except.ok (ScoreTable.mk only_snp_data.colNames
        [("jmi_score", (List.range only_snp_data.colNames.length).map
          (fun i => some (if F.contains i then 1 else 0)))])

/-- Embedding of the discrete-outcome alpha search of `lasso` (source lines
374-401): `fit alpha` is the number of features the L1 logistic fit selects at
strength `alpha`.  The Python `while` loop has no iteration bound; the `fuel`
argument counts loop iterations of the embedding, and `none` means the loop is
still running after `fuel` fits. -/
def lassoDiscreteRun (fit : ℚ → ℕ) (nLower nUpper : ℚ) :
    ℕ → ℚ → ℚ → Bool → Option ℚ
  | 0, _, _, _ => none
  | fuel + 1, alpha, alpha_change, first_ascent =>
    let sel : ℚ := (fit alpha : ℕ)
    if sel > nUpper then
      let step := if first_ascent then alpha_change * 2 else alpha_change / 2
      lassoDiscreteRun fit nLower nUpper fuel (alpha + step) step first_ascent
    else if sel < nLower then
      lassoDiscreteRun fit nLower nUpper fuel (alpha - alpha_change / 2) (alpha_change / 2) false
    else
      some alpha

/-- Embedding of the continuous-outcome alpha search of `lasso` (source lines
410-431): here the step is applied first and halved afterwards. -/
def lassoLinearRun (fit : ℚ → ℕ) (nLower nUpper : ℚ) :
    ℕ → ℚ → ℚ → Option ℚ
  | 0, _, _ => none
  | fuel + 1, alpha, alpha_change =>
    let sel : ℚ := (fit alpha : ℕ)
    if sel > nUpper then
      lassoLinearRun fit nLower nUpper fuel (alpha + alpha_change) (alpha_change / 2)
    else if sel < nLower then
      lassoLinearRun fit nLower nUpper fuel (alpha - alpha_change) (alpha_change / 2)
    else
      some alpha

/-- Embedding of the driver `lasso` (source lines 334-438).  The result
`Except.ok none` means the un-bounded Python loop is still running after
`fuel` iterations. -/
def lasso (ext : Externals) (fuel : ℕ) (data : DataFrame) (target : String)
    (kwargs : Kwargs) : Except String (Option ScoreTable) :=
  match data.getCol target with
  | none => Except.error "KeyError"
  | some rawt =>
    let target_arr := targetAstypeInt rawt
    match data.drop [target, "ID_1"] with
    | Except.error e => Except.error e
    | Except.ok only_snp_data =>
      let data_arr := only_snp_data.cols.map Prod.snd
      match List.lookup "outcome" kwargs with
      | none => Except.error "Keyword argument outcome must be specified for Lasso feature selection"
      | some outcome =>
        let n_selected_features := getNum kwargs "n_selected_features" 50
        let tolerance := getNum kwargs "tolerance" (1 / 10)
        let n_upper := n_selected_features + n_selected_features * tolerance
        let n_lower := n_selected_features - n_selected_features * tolerance
        if outcome = KwVal.str "discrete" then
          let fit := fun a =>
            ((ext.logisticL1 data_arr target_arr a).filter (fun c => decide (|c| > 0))).length
          match lassoDiscreteRun fit n_lower n_upper fuel 1 (1 / 2) true with
          | none => Except.ok none
          | some alpha =>
            let coefs := ext.logisticL1 data_arr target_arr alpha
            Except.ok (some (ScoreTable.mk only_snp_data.colNames
              [("lasso_coeff", coefs.map some),
               ("lasso_score", coefs.map (fun c => some |c|))]))
        else if outcome = KwVal.str "continuous" then
          let fit := fun a =>
            ((ext.linearLasso data_arr target_arr a).filter (fun c => decide (|c| > 0))).length
          match lassoLinearRun fit n_lower n_upper fuel 1 (1 / 2) with
          | none => Except.ok none
          | some alpha =>
            let coefs := ext.linearLasso data_arr target_arr alpha
            Except.ok (some (ScoreTable.mk only_snp_data.colNames
              [("lasso_coeff", coefs.map some),
               ("lasso_score", coefs.map (fun c => some |c|))]))
        else
          Except.error "Keyword argument outcome must be continuous or discrete"

/-- Target preparation shared by every scoring driver: the source line
`target_arr = data[target].to_numpy().astype('int')` appears verbatim in
`chisquare`, `infogain`, `mann_whitney_u`, `ttest`, `mrmr`, `jmi` and
`lasso`. -/
def driverTargetArr (data : DataFrame) (target : String) : Option (List ℤ) :=
  (data.getCol target).map targetAstypeInt

/-- Reassembly step of the worker pool: `pool.map` stores each completed task
result in the slot of its input index and hands back the slots in input
order.  `done` is the completion log, one entry per completed task, in
completion order. -/
def poolGather (n : ℕ) (done : List (ℕ × Except String α)) : Except String (List α) :=
  exceptMapList (fun i =>
    match done.find? (fun p => p.1 == i) with
    | some pr => pr.2
    | none => Except.error "lost task") (List.range n)

/-- Worker-pool semantics with an explicit completion order: the tasks with
indices below `n` complete in the order listed in `order`, and the pool then
reassembles the results by input index. -/
def poolMapModel (task : ℕ → Except String α) (n : ℕ) (order : List ℕ) :
    Except String (List α) :=
  poolGather n (order.map (fun i => (i, task i)))

/-- Dispatch of one `fs_wrapper` task per feature id, as every univariate
driver performs it. -/
def univariateDispatch (ext : Externals) (d : DataFrame) (t : List ℤ)
    (fname : String) (ids : List String) : Except String (List (FSResult × String × ℚ)) :=
  exceptMapList (fun s => fs_wrapper ext d t s fname) ids

/-- Aggregation scan of source lines 656-663: walk the per-bootstrap cells of
one (feature, method) pair, counting NaN cells and collecting the valid
scores in order. -/
def collectScores (cells : List (Option ℚ)) : ℕ × List ℚ :=
  cells.foldl (fun acc c =>
    match c with
    | none => (acc.1 + 1, acc.2)
    | some v => (acc.1, acc.2 ++ [v])) (0, [])

/-- Sorting step of source lines 664-667: ascending for `mwu`
(`results.sort()`), descending otherwise (`results.sort(reverse = True)`). -/
def sortScores (name : String) (rs : List ℚ) : List ℚ :=
  if name = "mwu" then rs.insertionSort (· ≤ ·)
  else (rs.insertionSort (· ≤ ·)).reverse

/-- Total written at source line 668: `sum(results[:k_best])`. -/
def totalKBest (name : String) (cells : List (Option ℚ)) (k : ℕ) : ℚ :=
  ((sortScores name (collectScores cells).2).take k).sum

/-- NaN counter for one (feature, method) pair, incremented at line 661. -/
def nanTotal (cells : List (Option ℚ)) : ℕ := (collectScores cells).1

/-- Embedding of source lines 572-576: the `k_best` default and the
rejection of a `k_best` larger than `n_bootstraps`. -/
def kBestResolve (k_best : Option ℤ) (n_bootstraps : ℤ) : Except String ℤ :=
  let kb := match k_best with
    | none => n_bootstraps - 1
    | some k => k
  if kb > n_bootstraps then
    Except.error "Cannot pick that many best scores out of the bootstraps"
  else
    Except.ok kb

/-- Row of the final aggregate table: feature id, full-dataset frequency, and
the per-method totals and NaN counts. -/
structure FinalRow where
  snp : String
  frequency : ℚ
  totals : List (String × ℚ)
  nans : List (String × ℕ)
deriving DecidableEq

/-- Embedding of the aggregation epilogue of `bootstrapped_feat_select`
(source lines 626-669): the row set of the final table is the column list of
`frequency_mask(self.data.drop(columns = [stratify_column, 'ID_1']))`, each
row's frequency is `freq_map[snp]`, and the per-method totals and NaN counts
come from that row's per-bootstrap cells (`cells name snp`, the score columns
read back from the per-bootstrap files). -/
def finalTable (data : DataFrame) (stratify : String) (threshold : ℚ)
    (fmap : List (String × ℚ)) (methods : List String) (k : ℕ)
    (cells : String → String → List (Option ℚ)) : Except String (List FinalRow) :=
  match data.drop [stratify, "ID_1"] with
  | Except.error e => Except.error e
  | Except.ok d0 =>
    match frequency_mask d0 threshold fmap with
    | Except.error e => Except.error e
    | Except.ok dm =>
      exceptMapList (fun snp =>
        match List.lookup snp fmap with
        | none => Except.error "KeyError"
        | some fr => Except.ok (FinalRow.mk snp fr
            (methods.map (fun m => (m, totalKBest m (cells m snp) k)))
            (methods.map (fun m => (m, nanTotal (cells m snp)))))) dm.colNames

/-! Helper lemmas about the embedding. -/

theorem exceptMapList_congr {f g : α → Except String β} {l : List α}
    (h : ∀ a ∈ l, f a = g a) : exceptMapList f l = exceptMapList g l := by
  induction l with
  | nil => rfl
  | cons a l ih =>
    simp only [exceptMapList]
    rw [h a (List.mem_cons_self a l), ih (fun b hb => h b (List.mem_cons_of_mem a hb))]

theorem exceptMapList_ok_map {f : α → Except String β} {g : α → β} {l : List α}
    (h : ∀ a ∈ l, f a = Except.ok (g a)) : exceptMapList f l = Except.ok (l.map g) := by
  induction l with
  | nil => rfl
  | cons a l ih =>
    simp only [exceptMapList, List.map_cons]
    rw [h a (List.mem_cons_self a l), ih (fun b hb => h b (List.mem_cons_of_mem a hb))]

theorem exceptMapList_error_of_mem {f : α → Except String β} {l : List α} {a : α} {e : String}
    (ha : a ∈ l) (he : f a = Except.error e) :
    ∃ e2, exceptMapList f l = Except.error e2 := by
  induction l with
  | nil => cases ha
  | cons b l ih =>
    rcases List.mem_cons.mp ha with rfl | hmem
    · exact ⟨e, by simp only [exceptMapList, he]⟩
    · simp only [exceptMapList]
      cases hb : f b with
      | error e3 => exact ⟨e3, rfl⟩
      | ok v =>
        rcases ih hmem with ⟨e2, h2⟩
        exact ⟨e2, by rw [h2]⟩

theorem exceptMapList_ok_proj {f : α → Except String β} {proj : β → α} {l : List α}
    {rs : List β} (h : exceptMapList f l = Except.ok rs)
    (hp : ∀ a b, f a = Except.ok b → proj b = a) : rs.map proj = l := by
  induction l generalizing rs with
  | nil =>
    simp only [exceptMapList] at h
    cases h
    rfl
  | cons a l ih =>
    simp only [exceptMapList] at h
    cases ha : f a with
    | error e => rw [ha] at h; cases h
    | ok b =>
      rw [ha] at h
      cases hrest : exceptMapList f l with
      | error e => rw [hrest] at h; cases h
      | ok bs =>
        rw [hrest] at h
        cases h
        simp only [List.map_cons, ih hrest, hp a b ha]

theorem find?_completion_log {α : Type} (task : ℕ → Except String α) (i : ℕ)
    (order : List ℕ) (hi : i ∈ order) :
    (order.map (fun j => (j, task j))).find? (fun p => p.1 == i) = some (i, task i) := by
  induction order with
  | nil => cases hi
  | cons j rest ih =>
    rcases List.mem_cons.mp hi with rfl | hmem
    · simp [List.find?]
    · by_cases hj : j = i
      · subst hj; simp [List.find?]
      · simp only [List.map_cons, List.find?]
        rw [show (((j, task j).1 == i) = false) from beq_eq_false_iff_ne.mpr hj]
        exact ih hmem

theorem collectScores_eq (cells : List (Option ℚ)) :
    collectScores cells
      = ((cells.filter (fun c => c.isNone)).length, cells.filterMap id) := by
  have go : ∀ (cs : List (Option ℚ)) (acc : ℕ × List ℚ),
      cs.foldl (fun acc c =>
        match c with
        | none => (acc.1 + 1, acc.2)
        | some v => (acc.1, acc.2 ++ [v])) acc
        = (acc.1 + (cs.filter (fun c => c.isNone)).length, acc.2 ++ cs.filterMap id) := by
    intro cs
    induction cs with
    | nil => intro acc; simp
    | cons c cs ih =>
      intro acc
      cases c with
      | none =>
        simp only [List.foldl_cons, ih, List.filter_cons, List.filterMap_cons]
        simp [Nat.add_comm, Nat.add_assoc, Nat.add_left_comm]
      | some v =>
        simp only [List.foldl_cons, ih, List.filter_cons, List.filterMap_cons]
        simp
  simpa using go cells (0, [])

theorem fs_wrapper_ok_snp {ext : Externals} {d : DataFrame} {t : List ℤ}
    {s fname : String} {r : FSResult × String × ℚ}
    (h : fs_wrapper ext d t s fname = Except.ok r) : r.2.1 = s := by
  unfold fs_wrapper at h
  cases hg : DataFrame.getCol d s with
  | none => rw [hg] at h; cases h
  | some col =>
    rw [hg] at h
    simp only at h
    split_ifs at h <;> cases h <;> rfl

/-! Claim theorems. -/

/-- C1: for every feature and method the aggregate total is the sum of the
`k_best` best valid per-bootstrap scores — the `k_best` smallest for `mwu`
(ascending sort), the `k_best` largest otherwise (descending sort) — each NaN
cell increments the NaN counter instead of contributing, `k_best` defaults to
`n_bootstraps - 1`, and a `k_best` above `n_bootstraps` is rejected with an
error. -/
theorem aggregate_topk_correct (name : String) (cells : List (Option ℚ)) (k : ℕ)
    (n kb : ℤ) :
    nanTotal cells = (cells.filter (fun c => c.isNone)).length
    ∧ (sortScores name (collectScores cells).2).Perm (cells.filterMap id)
    ∧ (if name = "mwu" then (sortScores name (collectScores cells).2).Sorted (· ≤ ·)
       else (sortScores name (collectScores cells).2).Sorted (· ≥ ·))
    ∧ totalKBest name cells k = ((sortScores name (collectScores cells).2).take k).sum
    ∧ kBestResolve none n = Except.ok (n - 1)
    ∧ kBestResolve (some kb) n
        = (if kb > n then
             Except.error "Cannot pick that many best scores out of the bootstraps"
           else Except.ok kb) := by
  refine ⟨?_, ?_, ?_, rfl, ?_, rfl⟩
  · rw [nanTotal, collectScores_eq]
  · rw [collectScores_eq]
    by_cases hm : name = "mwu"
    · simp only [sortScores, if_pos hm]
      exact List.perm_insertionSort _ _
    · simp only [sortScores, if_neg hm]
      exact (List.reverse_perm _).trans (List.perm_insertionSort _ _)
  · by_cases hm : name = "mwu"
    · simp only [sortScores, if_pos hm]
      exact List.sorted_insertionSort _ _
    · simp only [sortScores, if_neg hm]
      rw [List.Sorted, List.pairwise_reverse]
      exact List.sorted_insertionSort (· ≤ ·) _
  · simp only [kBestResolve]
    rw [if_neg (by omega)]

theorem lassoRun_stuck_of_zero_fit (fit : ℚ → ℕ) (nLower nUpper : ℚ)
    (hf : ∀ a, fit a = 0) (hpos : 0 < nLower) :
    (∀ fuel alpha step fa, lassoDiscreteRun fit nLower nUpper fuel alpha step fa = none)
    ∧ (∀ fuel alpha step, lassoLinearRun fit nLower nUpper fuel alpha step = none) := by
  constructor
  · intro fuel
    induction fuel with
    | zero => intro alpha step fa; rfl
    | succ fuel ih =>
      intro alpha step fa
      simp only [lassoDiscreteRun, hf, Nat.cast_zero]
      by_cases hU : (0:ℚ) > nUpper
      · rw [if_pos hU]
        exact ih _ _ _
      · rw [if_neg hU, if_pos hpos]
        exact ih _ _ _
  · intro fuel
    induction fuel with
    | zero => intro alpha step; rfl
    | succ fuel ih =>
      intro alpha step
      simp only [lassoLinearRun, hf, Nat.cast_zero]
      by_cases hU : (0:ℚ) > nUpper
      · rw [if_pos hU]
        exact ih _ _
      · rw [if_neg hU, if_pos hpos]
        exact ih _ _

/-- C2: the adaptive LASSO alpha search of the source is NOT bounded.  With a
fit that always selects zero features and the default target band
`[45, 55]` (fifty features, tolerance one tenth), both the discrete and the
continuous loop are still running after every finite number of fit-and-count
iterations, from every loop state — the embedding returns `none` for every
fuel — so the code loops forever instead of failing with a distinct
non-convergence error after a bounded number of iterations (no such error
kind exists in the source). -/
theorem lasso_search_never_terminates :
    ∀ (fuel : ℕ) (alpha step : ℚ) (fa : Bool),
      lassoDiscreteRun (fun _ => 0) 45 55 fuel alpha step fa = none
      ∧ lassoLinearRun (fun _ => 0) 45 55 fuel alpha step = none := by
  intro fuel alpha step fa
  have h := lassoRun_stuck_of_zero_fit (fun _ => 0) 45 55 (fun _ => rfl) (by norm_num)
  exact ⟨h.1 fuel alpha step fa, h.2 fuel alpha step⟩

/-- Concrete externals used by the concrete evaluations below. -/
def extK : Externals :=
  ⟨fun _ _ => (1, 1), fun _ _ => 1, fun _ _ => (1, 1), fun _ _ => (1, 1),
   fun l => l, fun _ _ _ => [0], fun _ _ _ => [0], fun _ _ _ => [1], fun _ _ _ => [1]⟩

/-- Two-feature frame used by the dispatch witness. -/
def dataC3 : DataFrame := DataFrame.mk 2 [("A", [0, 1]), ("B", [1, 0])]

/-- Concrete task function used by the dispatch witness. -/
def taskK : ℕ → Except String ℕ := fun i => Except.ok (i + 10)

/-- C3: the dispatcher's output is independent of task completion order (any
permutation of the input indices reassembles to the in-order result list), a
successful dispatch returns exactly one record per input feature id, in input
order (none dropped, none duplicated), and one failing task aborts the whole
dispatch with the error propagated and no partial results. -/
theorem dispatch_exactly_once_and_abort (α : Type) (task : ℕ → Except String α)
    (n : ℕ) (order : List ℕ) (ext : Externals) (d : DataFrame) (t : List ℤ)
    (fname : String) (ids : List String)
    (hperm : order.Perm (List.range n)) :
    poolMapModel task n order = exceptMapList task (List.range n)
    ∧ (∀ rs, univariateDispatch ext d t fname ids = Except.ok rs →
        rs.map (fun r => r.2.1) = ids)
    ∧ (∀ s e, s ∈ ids → fs_wrapper ext d t s fname = Except.error e →
        ∃ e2, univariateDispatch ext d t fname ids = Except.error e2) := by
  refine ⟨?_, ?_, ?_⟩
  · unfold poolMapModel poolGather
    apply exceptMapList_congr
    intro i hi
    rw [find?_completion_log task i order (hperm.mem_iff.mpr hi)]
  · intro rs h
    exact exceptMapList_ok_proj h (fun a b hb => fs_wrapper_ok_snp hb)
  · intro s e hs he
    exact exceptMapList_error_of_mem hs he

/-- Witness for C3: features A and B scored out of order reassemble exactly
once each; an unrecoverable task error (here an unrecognized method raised
inside the task) aborts the dispatch with no records at all. -/
theorem dispatch_exactly_once_and_abort_witness :
    poolMapModel taskK 3 [2, 0, 1] = exceptMapList taskK (List.range 3)
    ∧ (∃ rs, univariateDispatch extK dataC3 [0, 1] "chi2" ["A", "B"] = Except.ok rs
        ∧ rs.map (fun r => r.2.1) = ["A", "B"])
    ∧ (∃ e2, univariateDispatch extK dataC3 [0, 1] "nonsense" ["A", "B"] = Except.error e2) := by
  have h := dispatch_exactly_once_and_abort ℕ taskK 3 [2, 0, 1] extK dataC3 [0, 1]
    "chi2" ["A", "B"] (by decide)
  have h2 := dispatch_exactly_once_and_abort ℕ taskK 3 [2, 0, 1] extK dataC3 [0, 1]
    "nonsense" ["A", "B"] (by decide)
  refine ⟨h.1, ⟨_, rfl, h.2.1 _ rfl⟩,
    h2.2.2 "A" "Unrecognized feature selection function name: nonsense" (by decide) rfl⟩

/-- Failing task used by the release counterexample: the task for feature B
raises an unrecoverable error. -/
def taskFailB : String → Except String ℚ :=
  fun s => if s = "B" then Except.error "boom" else Except.ok 1

/-- C4 counterexample: when a task error aborts the dispatch call, the unlink
statements after `pool.map` are never executed (there is no `try/finally` in
the source), so the shared storage is NOT released — refuting the claim that
it is released both on success and on failure. -/
theorem release_skipped_on_error_cex :
    dispatchAndRelease taskFailB ["A", "B", "C"] = (Except.error "boom", false) := rfl

/-- C4 (amended): the dispatch result is propagated unchanged and the shared
storage is released exactly when `pool.map` completed successfully; on a task
error the exception propagates first and the storage leaks. -/
theorem release_iff_dispatch_ok (α : Type) (task : String → Except String α)
    (ids : List String) :
    (dispatchAndRelease task ids).1 = exceptMapList task ids
    ∧ ((dispatchAndRelease task ids).2 = true ↔ ∃ rs, exceptMapList task ids = Except.ok rs) := by
  unfold dispatchAndRelease
  cases h : exceptMapList task ids with
  | ok rs => exact ⟨rfl, by simp⟩
  | error e => exact ⟨rfl, by simp⟩

/-- Modelled from the spec: the claimed grouping "splits the target values
into two groups by feature value (0 vs non-zero)".  The source instead splits
into the value-0 group and the value-1 group. -/
def groupWhereSpecNonzero (col : List ℚ) (target : List ℤ) : List ℤ × List ℤ :=
  (((col.zip target).filter (fun p => decide (p.1 = 0))).map Prod.snd,
   ((col.zip target).filter (fun p => decide (¬ p.1 = 0))).map Prod.snd)

/-- One-feature frame whose genotype column takes the values 0 and 2. -/
def dataC5 : DataFrame := DataFrame.mk 2 [("f", [0, 2])]

/-- C5 counterexample: on the feature column `[0, 2]` both groups of the
claim's 0-versus-non-zero grouping are inhabited, yet the code returns the
all-NaN sentinel record (its second group is `feature value = 1`, which is
empty here) — refuting the claimed grouping. -/
theorem mwu_grouping_cex :
    (groupWhereSpecNonzero [0, 2] [3, 4]).1 ≠ []
    ∧ (groupWhereSpecNonzero [0, 2] [3, 4]).2 ≠ []
    ∧ (∃ fr, fs_wrapper extK dataC5 [3, 4] "f" "mwu"
          = Except.ok (FSResult.mwuR none none none, "f", fr)
        ∧ fs_wrapper extK dataC5 [3, 4] "f" "ttest"
          = Except.ok (FSResult.ttestR none none, "f", fr)) :=
  ⟨by decide, by decide, ⟨_, rfl, rfl⟩⟩

/-- C5 (amended): the `mwu` scorer splits the target by feature value 0
versus feature value 1 (subjects with any other value are excluded); it
computes the U statistic in both directions plus the two-sided p-value, and
whenever the value-0 group or the value-1 group is empty, it — and the
`ttest` scorer, which uses the same grouping — returns the NaN sentinel for
every output instead of raising. -/
theorem mwu_ttest_grouping_nan (ext : Externals) (data : DataFrame) (t : List ℤ)
    (snp : String) (col : List ℚ) (h : data.getCol snp = some col) :
    ((groupWhere col t 0 = [] ∨ groupWhere col t 1 = []) →
      fs_wrapper ext data t snp "mwu"
        = Except.ok (FSResult.mwuR none none none, snp, col.sum)
      ∧ fs_wrapper ext data t snp "ttest"
        = Except.ok (FSResult.ttestR none none, snp, col.sum))
    ∧ (groupWhere col t 0 ≠ [] → groupWhere col t 1 ≠ [] →
      fs_wrapper ext data t snp "mwu" = Except.ok (FSResult.mwuR
        (some (ext.mwufn (groupWhere col t 0) (groupWhere col t 1)).1)
        (some (ext.mwufn (groupWhere col t 1) (groupWhere col t 0)).1)
        (some (ext.mwufn (groupWhere col t 0) (groupWhere col t 1)).2), snp, col.sum)
      ∧ fs_wrapper ext data t snp "ttest" = Except.ok (FSResult.ttestR
        (some (ext.ttestfn (groupWhere col t 0) (groupWhere col t 1)).1)
        (some (ext.ttestfn (groupWhere col t 0) (groupWhere col t 1)).2), snp, col.sum)) := by
  constructor
  · intro hemp
    have hb : ((groupWhere col t 0).isEmpty || (groupWhere col t 1).isEmpty) = true := by
      rcases hemp with h1 | h1 <;> simp [h1]
    constructor <;> simp [fs_wrapper, h, hb]
  · intro h1 h2
    have hb : ((groupWhere col t 0).isEmpty || (groupWhere col t 1).isEmpty) = false := by
      simp only [Bool.or_eq_false_iff]
      exact ⟨by simpa using h1, by simpa using h2⟩
    constructor <;> simp [fs_wrapper, h, hb]

/-- Witness for C5: on a 0/1 genotype column both groups are inhabited and
the U statistics are emitted; on the 0/2 column the value-1 group is empty
and every output is the NaN sentinel. -/
theorem mwu_ttest_grouping_nan_witness :
    fs_wrapper extK dataC3 [0, 1] "A" "mwu"
      = Except.ok (FSResult.mwuR (some 1) (some 1) (some 1), "A", ([0, 1] : List ℚ).sum)
    ∧ fs_wrapper extK dataC5 [3, 4] "f" "mwu"
      = Except.ok (FSResult.mwuR none none none, "f", ([0, 2] : List ℚ).sum) := by
  have hA := mwu_ttest_grouping_nan extK dataC3 [0, 1] "A" [0, 1] rfl
  have hf := mwu_ttest_grouping_nan extK dataC5 [3, 4] "f" [0, 2] rfl
  exact ⟨(hA.2 (by decide) (by decide)).1, (hf.1 (Or.inr (by decide))).1⟩

/-- C6 (amended): `frequency_mask(D, t, F)` removes exactly the feature
columns listed in `F` whose frequency, or its complement against `len(D)`, is
below `t`, and leaves every other column unchanged — but it is NOT idempotent
in general: reapplying it to its own output raises a `KeyError` whenever at
least one column was removed (the drop list is recomputed from `F` and the
dropped labels are no longer present); it is a fixed point only when the drop
list is empty. -/
theorem frequency_mask_removes_exactly (D : DataFrame) (t : ℚ) (F : List (String × ℚ))
    (hsub : ∀ c ∈ maskDropList t F (D.nrows : ℚ), c ∈ D.colNames) :
    ∃ D2, frequency_mask D t F = Except.ok D2
      ∧ D2.nrows = D.nrows
      ∧ D2.cols = D.cols.filter
          (fun p => !((maskDropList t F (D.nrows : ℚ)).contains p.1))
      ∧ (∀ c, c ∈ maskDropList t F (D.nrows : ℚ) ↔
          ∃ v, (c, v) ∈ F ∧ (v < t ∨ (D.nrows : ℚ) - v < t))
      ∧ (maskDropList t F (D.nrows : ℚ) = [] → frequency_mask D2 t F = Except.ok D2)
      ∧ (maskDropList t F (D.nrows : ℚ) ≠ [] →
          ∃ e, frequency_mask D2 t F = Except.error e) := by
  have hall : (maskDropList t F (D.nrows : ℚ)).all (fun c => D.colNames.contains c) = true := by
    rw [List.all_eq_true]
    intro c hc
    exact List.elem_eq_true_of_mem (hsub c hc)
  refine ⟨DataFrame.mk D.nrows (D.cols.filter
      (fun p => !((maskDropList t F (D.nrows : ℚ)).contains p.1))),
    ?_, rfl, rfl, ?_, ?_, ?_⟩
  · unfold frequency_mask DataFrame.drop
    rw [if_pos hall]
  · intro c
    simp only [maskDropList, List.mem_map, List.mem_filter, Bool.or_eq_true,
      decide_eq_true_eq]
    constructor
    · rintro ⟨⟨c2, v⟩, ⟨hmem, hcond⟩, rfl⟩
      exact ⟨v, hmem, hcond⟩
    · rintro ⟨v, hmem, hcond⟩
      exact ⟨(c, v), ⟨hmem, hcond⟩, rfl⟩
  · intro hnil
    unfold frequency_mask DataFrame.drop
    simp only [hnil]
    simp [List.filter_eq_self]
  · intro hne
    rcases List.exists_mem_of_ne_nil _ hne with ⟨c, hc⟩
    refine ⟨"KeyError", ?_⟩
    unfold frequency_mask DataFrame.drop
    rw [if_neg ?_]
    intro hcontra
    rw [List.all_eq_true] at hcontra
    have hmem := hcontra c hc
    simp only [List.contains, List.elem_eq_mem, decide_eq_true_eq, DataFrame.colNames,
      List.mem_map] at hmem
    rcases hmem with ⟨p, hp, rfl⟩
    rw [List.mem_filter] at hp
    have h2 := hp.2
    simp only [List.contains, List.elem_eq_mem, Bool.not_eq_true', decide_eq_false_iff_not] at h2
    exact h2 hc

/-- Four-row frame with a rare feature `s1` and a common feature `s2`. -/
def dataC6 : DataFrame := DataFrame.mk 4 [("s1", [1, 0, 0, 0]), ("s2", [1, 1, 0, 0])]

/-- Frequency map of `dataC6`. -/
def fmapC6 : List (String × ℚ) := [("s1", 1), ("s2", 2)]

/-- Masked version of `dataC6`: `s1` removed. -/
def dataC6m : DataFrame := DataFrame.mk 4 [("s2", [1, 1, 0, 0])]

/-- C6 counterexample: masking `dataC6` at threshold 2 removes `s1`, and
applying `frequency_mask` again to its own output with the same threshold and
frequency map raises a `KeyError` instead of returning the same frame —
refuting the claimed idempotence. -/
theorem frequency_mask_not_idempotent_cex :
    frequency_mask dataC6 2 fmapC6 = Except.ok dataC6m
    ∧ frequency_mask dataC6m 2 fmapC6 = Except.error "KeyError" := by
  have hdl : maskDropList 2 fmapC6 ((4 : ℕ) : ℚ) = ["s1"] := by
    norm_num [maskDropList, fmapC6, List.filter]
  constructor
  · show dataC6.drop (maskDropList 2 fmapC6 ((4 : ℕ) : ℚ)) = Except.ok dataC6m
    rw [hdl]
    rfl
  · show dataC6m.drop (maskDropList 2 fmapC6 ((4 : ℕ) : ℚ)) = Except.error "KeyError"
    rw [hdl]
    rfl

/-- Witness for C6: the mask of `dataC6` succeeds and keeps exactly the
columns outside the drop list. -/
theorem frequency_mask_removes_exactly_witness :
    ∃ D2, frequency_mask dataC6 2 fmapC6 = Except.ok D2
      ∧ D2.cols = dataC6.cols.filter
          (fun p => !((maskDropList 2 fmapC6 (dataC6.nrows : ℚ)).contains p.1)) := by
  have hdl2 : maskDropList 2 fmapC6 (dataC6.nrows : ℚ) = ["s1"] := by
    norm_num [maskDropList, fmapC6, dataC6, List.filter]
  have h := frequency_mask_removes_exactly dataC6 2 fmapC6 (by
    intro c hc
    rw [hdl2] at hc
    simp only [List.mem_singleton] at hc
    subst hc
    decide)
  rcases h with ⟨D2, h1, _, h3, _⟩
  exact ⟨D2, h1, h3⟩

/-- Small frame with an id column, a binary outcome and one SNP. -/
def data7 : DataFrame := DataFrame.mk 2 [("ID_1", [1, 2]), ("y", [0, 1]), ("s1", [0, 1])]

/-- C7: under the default correction setting, `chisquare` and `ttest` build
an `adjusted_p_val` column by applying the imported FDR procedure to the raw
p-values, and the drivers without p-values (`infogain`, `mrmr`, `jmi`) run no
correction step at all — but `mann_whitney_u` aborts with a `NameError`: its
correction line calls the global name `fdr_correction`, which the module
never defines (the import is `fdrcorrection`), so the claimed corrected
p-value column is never produced for `mwu`. -/
theorem mwu_fdr_name_error :
    mann_whitney_u extK data7 "y" []
      = (Except.error "NameError: name fdr_correction is not defined", true)
    ∧ (∃ tb, (chisquare extK data7 "y" []).1 = Except.ok tb
        ∧ tb.numCols.map Prod.fst = ["chi2_score", "p_val", "adjusted_p_val", "frequency"]
        ∧ tb.numCols.lookup "adjusted_p_val" = some [some 1])
    ∧ (∃ tb, (ttest extK data7 "y" []).1 = Except.ok tb
        ∧ tb.numCols.map Prod.fst
            = ["t_statistic", "ttest_score", "p_val", "adjusted_p_val", "frequency"])
    ∧ (∃ tb, (infogain extK data7 "y" []).1 = Except.ok tb
        ∧ tb.numCols.map Prod.fst = ["infogain_score", "frequency"])
    ∧ (∃ tb, mrmr extK data7 "y" [] = Except.ok tb
        ∧ tb.numCols.map Prod.fst = ["mrmr_score"])
    ∧ (∃ tb, jmi extK data7 "y" [] = Except.ok tb
        ∧ tb.numCols.map Prod.fst = ["jmi_score"]) :=
  ⟨rfl, ⟨_, rfl, rfl, rfl⟩, ⟨_, rfl, rfl⟩, ⟨_, rfl, rfl⟩, ⟨_, rfl, rfl⟩, ⟨_, rfl, rfl⟩⟩

theorem map_fst_filter_key (q : String → Bool) (cols : List (String × List ℚ)) :
    (cols.filter (fun p => q p.1)).map Prod.fst = (cols.map Prod.fst).filter q := by
  induction cols with
  | nil => rfl
  | cons p cols ih =>
    simp only [List.filter_cons, List.map_cons]
    cases hq : q p.1 <;> simp [hq, ih]

theorem drop_colNames_eq (d1 d2 : DataFrame) (L : List String)
    (h : d1.colNames = d2.colNames) :
    (d1.drop L).map DataFrame.colNames = (d2.drop L).map DataFrame.colNames := by
  unfold DataFrame.drop
  rw [h]
  by_cases hall : L.all (fun c => d2.colNames.contains c) = true
  · rw [if_pos hall, if_pos hall]
    show Except.ok ((d1.cols.filter (fun p => !L.contains p.1)).map Prod.fst)
      = Except.ok ((d2.cols.filter (fun p => !L.contains p.1)).map Prod.fst)
    rw [map_fst_filter_key (fun s => !L.contains s) d1.cols,
      map_fst_filter_key (fun s => !L.contains s) d2.cols,
      show d1.cols.map Prod.fst = d2.cols.map Prod.fst from h]
  · rw [if_neg hall, if_neg hall]

/-- C8 (amended): the drop list of `frequency_mask` depends only on the
frequency map, the threshold, and the ROW COUNT of the frame being masked, so
the surviving feature set is identical for a bootstrap sample and the full
dataset whenever the sample has as many rows as the full dataset (the default
`n_samples = None`); with a different sample size the complement test
`len(data) - F[f] < t` can flip, so the claimed invariant holds only under
that row-count condition. -/
theorem mask_stable_same_rowcount (df : DataFrame) (idxs : List ℕ) (t : ℚ)
    (F : List (String × ℚ)) (h : idxs.length = df.nrows) :
    (frequency_mask (df.sampleRows idxs) t F).map DataFrame.colNames
      = (frequency_mask df t F).map DataFrame.colNames := by
  unfold frequency_mask
  rw [show ((df.sampleRows idxs).nrows : ℚ) = (df.nrows : ℚ) by
    rw [show (df.sampleRows idxs).nrows = idxs.length from rfl, h]]
  apply drop_colNames_eq
  show (df.cols.map _).map Prod.fst = _
  rw [List.map_map]
  rfl

/-- Ten-row frame whose single feature appears six times. -/
def dataC8 : DataFrame :=
  DataFrame.mk 10 [("f", [1, 1, 1, 1, 1, 1, 0, 0, 0, 0])]

/-- Full-dataset frequency map of `dataC8`. -/
def fmapC8 : List (String × ℚ) := [("f", 6)]

/-- Index list of a bootstrap sample with twenty rows. -/
def idxs20 : List ℕ := List.replicate 20 0

/-- C8 counterexample: with the SAME full-dataset frequency map and threshold
5, a twenty-row bootstrap sample keeps feature `f` (complement 20 - 6 = 14)
while the ten-row full dataset drops it (complement 10 - 6 = 4), so the
masked feature set is NOT the same in every bootstrap sample and at
aggregation time once `n_samples` differs from the dataset size. -/
theorem mask_differs_across_sizes_cex :
    (frequency_mask (dataC8.sampleRows idxs20) 5 fmapC8).map DataFrame.colNames
      = Except.ok ["f"]
    ∧ (frequency_mask dataC8 5 fmapC8).map DataFrame.colNames = Except.ok [] := by
  have h1 : maskDropList 5 fmapC8 ((20 : ℕ) : ℚ) = [] := by
    norm_num [maskDropList, fmapC8, List.filter]
  have h2 : maskDropList 5 fmapC8 ((10 : ℕ) : ℚ) = ["f"] := by
    norm_num [maskDropList, fmapC8, List.filter]
  constructor
  · show ((dataC8.sampleRows idxs20).drop
      (maskDropList 5 fmapC8 ((20 : ℕ) : ℚ))).map DataFrame.colNames = _
    rw [h1]
    rfl
  · show (dataC8.drop (maskDropList 5 fmapC8 ((10 : ℕ) : ℚ))).map DataFrame.colNames = _
    rw [h2]
    rfl

/-- Witness for C8: a ten-row sample of the ten-row frame is masked to the
same feature set as the frame itself. -/
theorem mask_stable_same_rowcount_witness :
    (frequency_mask (dataC8.sampleRows [0, 1, 2, 3, 4, 5, 6, 7, 8, 9]) 5 fmapC8).map
        DataFrame.colNames
      = (frequency_mask dataC8 5 fmapC8).map DataFrame.colNames :=
  mask_stable_same_rowcount dataC8 [0, 1, 2, 3, 4, 5, 6, 7, 8, 9] 5 fmapC8 (by decide)

theorem finalTable_eq (data : DataFrame) (stratify : String) (t : ℚ)
    (fmap : List (String × ℚ)) (methods : List String) (k : ℕ)
    (cells : String → String → List (Option ℚ)) (d0 dm : DataFrame)
    (h0 : data.drop [stratify, "ID_1"] = Except.ok d0)
    (h1 : frequency_mask d0 t fmap = Except.ok dm) :
    finalTable data stratify t fmap methods k cells
      = exceptMapList (fun snp =>
          match List.lookup snp fmap with
          | none => Except.error "KeyError"
          | some fr => Except.ok (FinalRow.mk snp fr
              (methods.map (fun m => (m, totalKBest m (cells m snp) k)))
              (methods.map (fun m => (m, nanTotal (cells m snp)))))) dm.colNames := by
  unfold finalTable
  simp only [h0]
  simp only [h1]

/-- C9 (amended): the final aggregate table has exactly one row for each
feature of the MASKED feature set — the input columns other than `ID_1` and
the outcome column, after `frequency_mask` with the full-dataset frequency
map — not for the full unmasked set; each row carries that feature's
full-dataset frequency (`freq_map[snp]`) and the per-method total-of-top-k
and NaN count. -/
theorem final_table_rows (data : DataFrame) (stratify : String) (t : ℚ)
    (fmap : List (String × ℚ)) (methods : List String) (k : ℕ)
    (cells : String → String → List (Option ℚ)) (d0 dm : DataFrame)
    (h0 : data.drop [stratify, "ID_1"] = Except.ok d0)
    (h1 : frequency_mask d0 t fmap = Except.ok dm)
    (h2 : ∀ c ∈ dm.colNames, ∃ v, List.lookup c fmap = some v) :
    ∃ rows, finalTable data stratify t fmap methods k cells = Except.ok rows
      ∧ rows.map FinalRow.snp = dm.colNames
      ∧ (∀ r ∈ rows, List.lookup r.snp fmap = some r.frequency
          ∧ r.totals = methods.map (fun m => (m, totalKBest m (cells m r.snp) k))
          ∧ r.nans = methods.map (fun m => (m, nanTotal (cells m r.snp)))) := by
  rw [finalTable_eq data stratify t fmap methods k cells d0 dm h0 h1]
  refine ⟨dm.colNames.map (fun snp => FinalRow.mk snp ((List.lookup snp fmap).getD 0)
      (methods.map (fun m => (m, totalKBest m (cells m snp) k)))
      (methods.map (fun m => (m, nanTotal (cells m snp))))), ?_, ?_, ?_⟩
  · apply exceptMapList_ok_map
    intro snp hsnp
    rcases h2 snp hsnp with ⟨v, hv⟩
    rw [hv]
    rfl
  · rw [List.map_map]
    exact List.map_id _
  · intro r hr
    rw [List.mem_map] at hr
    rcases hr with ⟨snp, hsnp, rfl⟩
    rcases h2 snp hsnp with ⟨v, hv⟩
    refine ⟨?_, rfl, rfl⟩
    show List.lookup snp fmap = some ((List.lookup snp fmap).getD 0)
    rw [hv]
    rfl

/-- Frame for the final-table counterexample: id, outcome, rare SNP `s1`,
common SNP `s2`. -/
def dataC9 : DataFrame := DataFrame.mk 4
  [("ID_1", [1, 2, 3, 4]), ("y", [0, 1, 0, 1]), ("s1", [1, 0, 0, 0]), ("s2", [1, 1, 0, 0])]

/-- Feature frame of `dataC9` after dropping the outcome and id columns. -/
def dataC9d : DataFrame := DataFrame.mk 4 [("s1", [1, 0, 0, 0]), ("s2", [1, 1, 0, 0])]

/-- Masked feature frame of `dataC9`. -/
def dataC9m : DataFrame := DataFrame.mk 4 [("s2", [1, 1, 0, 0])]

/-- C9 counterexample: the full unmasked feature set of `dataC9` is
`[s1, s2]`, but the final aggregate table built at threshold 2 has exactly
one row, for `s2` — the masked feature `s1` has no row, refuting the claim
that the table covers the full unmasked feature set. -/
theorem final_table_masked_rows_cex :
    (∃ rows, finalTable dataC9 "y" 2 fmapC6 ["chi2"] 1 (fun _ _ => []) = Except.ok rows
        ∧ rows.map FinalRow.snp = ["s2"])
    ∧ (dataC9.drop ["y", "ID_1"]).map DataFrame.colNames = Except.ok ["s1", "s2"] := by
  have hdl : maskDropList 2 fmapC6 ((4 : ℕ) : ℚ) = ["s1"] := by
    norm_num [maskDropList, fmapC6, List.filter]
  have hm : frequency_mask dataC9d 2 fmapC6 = Except.ok dataC9m := by
    show dataC9d.drop (maskDropList 2 fmapC6 ((4 : ℕ) : ℚ)) = _
    rw [hdl]
    rfl
  constructor
  · rw [finalTable_eq dataC9 "y" 2 fmapC6 ["chi2"] 1 (fun _ _ => []) dataC9d dataC9m rfl hm]
    exact ⟨_, rfl, rfl⟩
  · rfl

/-- Witness for C9: on `dataC9` the final table is built successfully and its
row set is the masked feature list. -/
theorem final_table_rows_witness :
    ∃ rows, finalTable dataC9 "y" 2 fmapC6 ["chi2"] 1 (fun _ _ => []) = Except.ok rows
      ∧ rows.map FinalRow.snp = dataC9m.colNames := by
  have hdl : maskDropList 2 fmapC6 ((4 : ℕ) : ℚ) = ["s1"] := by
    norm_num [maskDropList, fmapC6, List.filter]
  have hm : frequency_mask dataC9d 2 fmapC6 = Except.ok dataC9m := by
    show dataC9d.drop (maskDropList 2 fmapC6 ((4 : ℕ) : ℚ)) = _
    rw [hdl]
    rfl
  rcases final_table_rows dataC9 "y" 2 fmapC6 ["chi2"] 1 (fun _ _ => []) dataC9d dataC9m
      rfl hm (by
        intro c hc
        simp only [dataC9m, DataFrame.colNames, List.map_cons, List.map_nil,
          List.mem_singleton] at hc
        subst hc
        exact ⟨2, rfl⟩) with ⟨rows, hr1, hr2, _⟩
  exact ⟨rows, hr1, hr2⟩

/-- C10: every scoring driver coerces the target column with
`astype('int')` before computing, so the scorers see the integer-truncated
copy `rawt.map npIntCast`; truncation is toward zero (floor for non-negative,
ceiling for negative values), it is the identity exactly on integer-valued
targets, and it changes every non-integer (real-valued) target value. -/
theorem target_astype_int (data : DataFrame) (target : String) (rawt : List ℚ)
    (h : data.getCol target = some rawt) :
    driverTargetArr data target = some (rawt.map npIntCast)
    ∧ targetAstypeInt rawt = rawt.map npIntCast
    ∧ (∀ q : ℚ, q.den = 1 → ((npIntCast q : ℤ) : ℚ) = q)
    ∧ (∀ q : ℚ, q.den ≠ 1 → ((npIntCast q : ℤ) : ℚ) ≠ q)
    ∧ (∀ q : ℚ, 0 ≤ q → npIntCast q = ⌊q⌋)
    ∧ (∀ q : ℚ, q < 0 → npIntCast q = ⌈q⌉) := by
  refine ⟨?_, rfl, ?_, ?_, ?_, ?_⟩
  · rw [driverTargetArr, h]
    rfl
  · intro q hq
    have h2 : ((q.num : ℤ) : ℚ) = q := by
      exact_mod_cast (Rat.den_eq_one_iff q).mp hq
    rw [← h2, npIntCast]
    split_ifs <;> simp
  · intro q hq hcontra
    apply hq
    rw [← hcontra]
    exact Rat.den_intCast _
  · intro q hq
    rw [npIntCast, if_pos hq]
  · intro q hq
    rw [npIntCast, if_neg (not_le.mpr hq)]

/-- Frame whose outcome column is real-valued. -/
def data10 : DataFrame := DataFrame.mk 2 [("y", [5 / 2, -(7 / 2)])]

/-- Witness for C10: the drivers see the truncated copy of the continuous
target `[5/2, -7/2]`, and the value 5/2 is truncated to 2, which differs from
the original real value. -/
theorem target_astype_int_witness :
    driverTargetArr data10 "y" = some (([5 / 2, -(7 / 2)] : List ℚ).map npIntCast)
    ∧ npIntCast (5 / 2 : ℚ) = 2
    ∧ ((2 : ℚ) ≠ (5 / 2 : ℚ)) := by
  have h := target_astype_int data10 "y" [5 / 2, -(7 / 2)] rfl
  refine ⟨h.1, ?_, by norm_num⟩
  rw [h.2.2.2.2.1 (5 / 2) (by norm_num)]
  rw [show ⌊(5 / 2 : ℚ)⌋ = 2 by
    rw [Int.floor_eq_iff]
    norm_num]

end UKB
